import Mathlib

/-!
Shallow embedding of `src/sasanalyticstoolsexplorerv1.py`, a Streamlit
dashboard with a five-way page dispatcher and five renderers over literal
data plus one randomly sampled demo time series.  Pure data and the
branching logic are translated directly; display calls are modelled as the
values they would show, and the unseeded random draws are modelled as
explicitly passed streams `Nat → Rat`.
-/

set_option maxRecDepth 4000

/-- One entry of the `sas_tools` dictionary (lines 15-36 of the source). -/
structure ToolInfo where
  description : String
  key_features : List String
  use_cases : List String
deriving Repr, DecidableEq

def sasBaseInfo : ToolInfo :=
  { description := "The core module of SAS, providing extensive data manipulation techniques and sophisticated statistical algorithms."
  , key_features := ["Data Management", "Statistical Analysis", "Report Writing", "Programming Interface"]
  , use_cases := ["Data Cleaning", "Basic Statistics", "Custom Reports", "Data Transformation"] }

def sasEnterpriseGuideInfo : ToolInfo :=
  { description := "A user-friendly, point-and-click Windows client interface for quick access to SAS analytics."
  , key_features := ["Visual Interface", "Workflow Designer", "Built-in Tasks", "Project Organization"]
  , use_cases := ["Business Reports", "Statistical Analysis", "Data Exploration", "Process Automation"] }

def sasVisualAnalyticsInfo : ToolInfo :=
  { description := "A visual analytics software for creating interactive dashboards, reports, and data visualizations."
  , key_features := ["Interactive Dashboards", "Mobile Support", "Data Discovery", "Smart Visualizations"]
  , use_cases := ["Executive Dashboards", "Self-service Analytics", "Performance Monitoring", "Data Storytelling"] }

def sasViyaInfo : ToolInfo :=
  { description := "A cloud-based platform for artificial intelligence, machine learning, analytics, and data management."
  , key_features := ["Cloud Native", "Open Source Integration", "Scalable Processing", "Modern Architecture"]
  , use_cases := ["Enterprise AI", "Cloud Analytics", "Real-time Decisions", "Distributed Computing"] }

/-- The `sas_tools` dictionary: Python dicts preserve insertion order, so it
is embedded as an ordered association list. -/
def sas_tools : List (String × ToolInfo) :=
  [ ("SAS Base", sasBaseInfo)
  , ("SAS Enterprise Guide", sasEnterpriseGuideInfo)
  , ("SAS Visual Analytics", sasVisualAnalyticsInfo)
  , ("SAS Viya", sasViyaInfo) ]

/-- The five page renderers reachable from `main`. -/
inductive Renderer where
  | overview
  | toolExplorer
  | featuresComparison
  | industryApplications
  | demoAnalytics
deriving Repr, DecidableEq

/-- The option list of the sidebar radio control in `main` (line 45-48). -/
def navOptions : List String :=
  ["Overview", "Tool Explorer", "Features Comparison", "Industry Applications", "Demo Analytics"]

/-- The `if`/`elif` dispatch chain of `main` (lines 50-59), recorded as the
list of renderer invocations it performs for a given page identifier. -/
def mainDispatch (page : String) : List Renderer :=
  if page = "Overview" then [Renderer.overview]
  else if page = "Tool Explorer" then [Renderer.toolExplorer]
  else if page = "Features Comparison" then [Renderer.featuresComparison]
  else if page = "Industry Applications" then [Renderer.industryApplications]
  else if page = "Demo Analytics" then [Renderer.demoAnalytics]
  else []

/-- The benefit labels written by `show_overview` (lines 72-78). -/
def overview_benefits : List String :=
  [ "📊 Comprehensive Statistical Analysis"
  , "🎯 Advanced Data Visualization"
  , "🤖 Integrated Machine Learning"
  , "☁️ Cloud-Based Deployment"
  , "🔄 Open Source Interoperability" ]

/-- The industry labels written by `show_overview` (lines 84-90). -/
def overview_industries : List String :=
  [ "💼 Business Intelligence"
  , "⚠️ Risk Management"
  , "🌍 Environmental Analytics"
  , "📱 Social Media Analytics"
  , "🏥 Healthcare Analytics" ]

/-- What `show_tool_explorer` displays for a selected tool: the description
text, the bulleted feature lines, and the pinned use-case lines. -/
structure ToolExplorerView where
  description : String
  featureLines : List String
  useCaseLines : List String
deriving Repr, DecidableEq

/-- Python dict lookup `sas_tools[selected_tool]`, as an ordered search of
the association list. -/
def lookupTool (name : String) : Option ToolInfo :=
  (sas_tools.find? (fun p => p.1 = name)).map Prod.snd

/-- The body of `show_tool_explorer` (lines 94-115): fetch the selected
tool's entry and emit its description, one `• f` line per feature, and one
`📌 u` line per use case. -/
def show_tool_explorer (selected_tool : String) : Option ToolExplorerView :=
  (lookupTool selected_tool).map fun tool_info =>
    { description := tool_info.description
    , featureLines := tool_info.key_features.map (fun f => "• " ++ f)
    , useCaseLines := tool_info.use_cases.map (fun u => "📌 " ++ u) }

/-- The fixed feature column names of `show_features_comparison`
(lines 121-122). -/
def features : List String :=
  [ "Statistical Analysis", "Data Visualization", "Machine Learning"
  , "Cloud Support", "Open Source Integration" ]

/-- The `comparison_data` dictionary (lines 124-129): tool name to its
boolean row of the comparison matrix. -/
def comparison_data : List (String × List Bool) :=
  [ ("SAS Base", [true, false, false, false, false])
  , ("SAS Enterprise Guide", [true, true, false, false, false])
  , ("SAS Visual Analytics", [true, true, false, true, true])
  , ("SAS Viya", [true, true, true, true, true]) ]

/-- One entry of the `industries` dictionary of `show_industry_applications`
(lines 139-160).  Popularity is an integer percentage in the source. -/
structure IndustryInfo where
  icon : String
  applications : List String
  popularity : Int
deriving Repr, DecidableEq

/-- The `industries` dictionary of `show_industry_applications`
(lines 139-160), in insertion order. -/
def industries : List (String × IndustryInfo) :=
  [ ("Business Intelligence",
      { icon := "💼"
      , applications := ["Data Warehousing", "ETL Processes", "Reporting", "Analytics"]
      , popularity := 85 })
  , ("Risk Management",
      { icon := "⚠️"
      , applications := ["Credit Risk", "Market Risk", "Operational Risk", "Compliance"]
      , popularity := 75 })
  , ("Environmental Analytics",
      { icon := "🌍"
      , applications := ["Deforestation Monitoring", "Climate Analysis", "Resource Management"]
      , popularity := 60 })
  , ("Social Media Analytics",
      { icon := "📱"
      , applications := ["Sentiment Analysis", "Trend Monitoring", "Engagement Tracking"]
      , popularity := 70 }) ]

/-- The `industry_data` DataFrame fed to the bar chart (lines 163-166):
the (industry, popularity) pairs in dictionary order. -/
def industry_data : List (String × Int) :=
  industries.map (fun p => (p.1, p.2.popularity))

/-- The expander label `f"{details['icon']} {industry}"` of line 177. -/
def industryLabel (p : String × IndustryInfo) : String :=
  p.2.icon ++ " " ++ p.1

/-- A calendar date. -/
structure Date where
  year : Nat
  month : Nat
  day : Nat
deriving Repr, DecidableEq

/-- Gregorian leap-year rule (2024 is a leap year). -/
def isLeapYear (y : Nat) : Bool :=
  (y % 4 == 0 && y % 100 != 0) || (y % 400 == 0)

/-- Number of days of month `m` of year `y`. -/
def daysInMonth (y m : Nat) : Nat :=
  if m = 2 then (if isLeapYear y then 29 else 28)
  else if m = 4 || m = 6 || m = 9 || m = 11 then 30
  else 31

/-- The `n` consecutive (year, month) pairs starting at month `m` of
year `y`. -/
def monthsFrom (y m : Nat) : Nat → List (Nat × Nat)
  | 0 => []
  | n + 1 =>
    (y, m) :: (if m = 12 then monthsFrom (y + 1) 1 n else monthsFrom y (m + 1) n)

/-- The last day of a (year, month) pair. -/
def monthEnd (ym : Nat × Nat) : Date :=
  { year := ym.1, month := ym.2, day := daysInMonth ym.1 ym.2 }

/-- Lexicographic order on dates. -/
def dateLE (a b : Date) : Bool :=
  if a.year < b.year then true
  else if b.year < a.year then false
  else if a.month < b.month then true
  else if b.month < a.month then false
  else a.day ≤ b.day

/-- Semantics of `pd.date_range(start, end, freq="M")`: every month-end
date lying in the closed interval from the start date to the end date. -/
def date_range_M (start stop : Date) : List Date :=
  let n := (stop.year * 12 + stop.month) - (start.year * 12 + start.month) + 1
  ((monthsFrom start.year start.month n).map monthEnd).filter
    (fun d => dateLE start d && dateLE d stop)

/-- The `dates` index of `show_demo_analytics` (line 186):
`pd.date_range(start="2024-01-01", end="2024-12-31", freq="M")`. -/
def demo_dates : List Date :=
  date_range_M { year := 2024, month := 1, day := 1 }
               { year := 2024, month := 12, day := 31 }

/-- One row of the demo DataFrame (lines 187-192): the date index plus the
three sampled numeric fields. -/
structure DemoRow where
  date : Date
  sales : Rat
  customers : Rat
  satisfaction : Rat
deriving Repr, DecidableEq

/-- The demo DataFrame of lines 187-192.  The three unseeded NumPy draws
`np.random.normal(1000, 200, n)`, `np.random.normal(500, 100, n)` and
`np.random.uniform(3.5, 5, n)` each produce one value per date, modelled as
explicit streams indexed by row position. -/
def demoData (sales customers satisfaction : Nat → Rat) : List DemoRow :=
  demo_dates.enum.map fun p =>
    { date := p.2
    , sales := sales p.1
    , customers := customers p.1
    , satisfaction := satisfaction p.1 }

/-- A random-draw specification, as the NumPy sampling call made for a
column: `normal mean std` for `np.random.normal(mean, std, n)`,
`uniform lo hi` for `np.random.uniform(lo, hi, n)` (low inclusive, high
exclusive). -/
inductive DrawSpec where
  | normal (mean std : Rat)
  | uniform (lo hi : Rat)
deriving Repr, DecidableEq

/-- The three sampling calls of lines 189-191, column by column. -/
def demo_series_specs : List (String × DrawSpec) :=
  [ ("Sales", DrawSpec.normal 1000 200)
  , ("Customers", DrawSpec.normal 500 100)
  , ("Satisfaction", DrawSpec.uniform (7 / 2) 5) ]

/-- pandas `Series.mean()`: sum of the values divided by their count. -/
def seriesMean (l : List Rat) : Rat :=
  l.sum / (l.length : Rat)

/-- One `st.metric` call: its label, the numeric value displayed, and the
Python format specification applied to the value. -/
structure Metric where
  label : String
  value : Rat
  fmt : String
deriving Repr, DecidableEq

/-- The three summary statistics of lines 206-211, in display order:
`st.metric("Average Sales", f"$\x7bdata['Sales'].mean():,.0f\x7d")`,
`st.metric("Total Customers", f"\x7bdata['Customers'].sum():,.0f\x7d")`,
`st.metric("Avg Satisfaction", f"\x7bdata['Satisfaction'].mean():.1f\x7d/5.0")`. -/
def summary_stats (sales customers satisfaction : Nat → Rat) : List Metric :=
  let data := demoData sales customers satisfaction
  [ { label := "Average Sales"
    , value := seriesMean (data.map DemoRow.sales)
    , fmt := "$\x7b:,.0f\x7d" }
  , { label := "Total Customers"
    , value := (data.map DemoRow.customers).sum
    , fmt := "\x7b:,.0f\x7d" }
  , { label := "Avg Satisfaction"
    , value := seriesMean (data.map DemoRow.satisfaction)
    , fmt := "\x7b:.1f\x7d/5.0" } ]

/-- C1: for every one of the five fixed page identifiers of the navigation
radio control, the dispatch chain of `main` invokes exactly the one
corresponding renderer, exactly once per display cycle, and no identifier
of the closed option set falls through with no renderer invoked. -/
theorem main_dispatch_exhaustive :
    mainDispatch "Overview" = [Renderer.overview] ∧
    mainDispatch "Tool Explorer" = [Renderer.toolExplorer] ∧
    mainDispatch "Features Comparison" = [Renderer.featuresComparison] ∧
    mainDispatch "Industry Applications" = [Renderer.industryApplications] ∧
    mainDispatch "Demo Analytics" = [Renderer.demoAnalytics] ∧
    navOptions.length = 5 ∧
    (∀ p ∈ navOptions, (mainDispatch p).length = 1) := by
  decide

/-- C2: for every tool name among the four keys of `sas_tools`, the Tool
Explorer renderer displays exactly that tool's description, that tool's
features in order (as `• f` lines), and that tool's use cases in order (as
`📌 u` lines) — the full view equals the selected entry's data, so no other
tool's data appears. -/
theorem show_tool_explorer_exact (name : String) (info : ToolInfo)
    (h : (name, info) ∈ sas_tools) :
    show_tool_explorer name =
      some { description := info.description
           , featureLines := info.key_features.map (fun f => "• " ++ f)
           , useCaseLines := info.use_cases.map (fun u => "📌 " ++ u) } := by
  fin_cases h <;> decide

/-- C2 witness: the Tool Explorer view for the concrete key `SAS Viya`. -/
theorem show_tool_explorer_exact_witness :
    show_tool_explorer "SAS Viya" =
      some { description := sasViyaInfo.description
           , featureLines := sasViyaInfo.key_features.map (fun f => "• " ++ f)
           , useCaseLines := sasViyaInfo.use_cases.map (fun u => "📌 " ++ u) } :=
  show_tool_explorer_exact "SAS Viya" sasViyaInfo (by decide)

/-- C3: for every possible random draw (every choice of the three streams),
the demo DataFrame has exactly 12 rows, one per month-end date of 2024
(2024-01-31 through 2024-12-31, with 2024-02-29 since 2024 is a leap year),
and each of the three numeric columns has exactly one value per row. -/
theorem demoData_twelve_month_end_rows (s c sat : Nat → Rat) :
    (demoData s c sat).length = 12 ∧
    (demoData s c sat).map DemoRow.date =
      [ { year := 2024, month := 1, day := 31 }, { year := 2024, month := 2, day := 29 }
      , { year := 2024, month := 3, day := 31 }, { year := 2024, month := 4, day := 30 }
      , { year := 2024, month := 5, day := 31 }, { year := 2024, month := 6, day := 30 }
      , { year := 2024, month := 7, day := 31 }, { year := 2024, month := 8, day := 31 }
      , { year := 2024, month := 9, day := 30 }, { year := 2024, month := 10, day := 31 }
      , { year := 2024, month := 11, day := 30 }, { year := 2024, month := 12, day := 31 } ] ∧
    ((demoData s c sat).map DemoRow.sales).length = 12 ∧
    ((demoData s c sat).map DemoRow.customers).length = 12 ∧
    ((demoData s c sat).map DemoRow.satisfaction).length = 12 :=
  ⟨rfl, rfl, rfl, rfl, rfl⟩

/-- C3 witness: the row count at one concrete triple of streams. -/
theorem demoData_twelve_month_end_rows_witness :
    (demoData (fun _ => 0) (fun _ => 0) (fun _ => 0)).length = 12 :=
  (demoData_twelve_month_end_rows (fun _ => 0) (fun _ => 0) (fun _ => 0)).1

/-- C4: the comparison matrix is 4 tools by 5 features: the feature list
has length 5 and each of the four tool rows is a list of exactly 5 boolean
values, matching the feature-name list's length. -/
theorem comparison_matrix_shape :
    comparison_data.length = 4 ∧
    features.length = 5 ∧
    (∀ row ∈ comparison_data, row.2.length = 5 ∧ row.2.length = features.length) := by
  decide

/-- C5: the bar chart of the Industry Applications renderer charts exactly
four fixed (industry, popularity) pairs, and every popularity value lies
in the closed interval from 0 to 100. -/
theorem industry_chart_bounds :
    industry_data.length = 4 ∧
    industry_data =
      [ ("Business Intelligence", 85), ("Risk Management", 75)
      , ("Environmental Analytics", 60), ("Social Media Analytics", 70) ] ∧
    (∀ p ∈ industry_data, 0 ≤ p.2 ∧ p.2 ≤ 100) := by
  decide

/-- C6: the Demo Analytics renderer draws Gaussian series for Sales (mean
1000, std 200) and Customers (mean 500, std 100) and a uniform series on
[3.5, 5) for Satisfaction, and its three displayed summary statistics are,
in order, the mean of the Sales column, the sum of the Customers column and
the mean of the Satisfaction column, each with its fixed format string. -/
theorem demo_specs_and_summary (s c sat : Nat → Rat) :
    demo_series_specs =
      [ ("Sales", DrawSpec.normal 1000 200)
      , ("Customers", DrawSpec.normal 500 100)
      , ("Satisfaction", DrawSpec.uniform (7 / 2) 5) ] ∧
    summary_stats s c sat =
      [ { label := "Average Sales"
        , value := seriesMean ((demoData s c sat).map DemoRow.sales)
        , fmt := "$\x7b:,.0f\x7d" }
      , { label := "Total Customers"
        , value := ((demoData s c sat).map DemoRow.customers).sum
        , fmt := "\x7b:,.0f\x7d" }
      , { label := "Avg Satisfaction"
        , value := seriesMean ((demoData s c sat).map DemoRow.satisfaction)
        , fmt := "\x7b:.1f\x7d/5.0" } ] :=
  ⟨rfl, rfl⟩

/-- C6 witness: the draw specifications, read off by applying the theorem
at one concrete triple of streams. -/
theorem demo_specs_and_summary_witness :
    demo_series_specs =
      [ ("Sales", DrawSpec.normal 1000 200)
      , ("Customers", DrawSpec.normal 500 100)
      , ("Satisfaction", DrawSpec.uniform (7 / 2) 5) ] :=
  (demo_specs_and_summary (fun _ => 0) (fun _ => 0) (fun _ => 0)).1

/-- C7: for every tool identifier among the four keys of `sas_tools`, the
entry the Tool Explorer renders has a non-empty description string, a
non-empty key-feature list and a non-empty use-case list. -/
theorem tool_entries_nonempty (name : String) (info : ToolInfo)
    (h : (name, info) ∈ sas_tools) :
    ¬ info.description = "" ∧ ¬ info.key_features = [] ∧ ¬ info.use_cases = [] := by
  fin_cases h <;> decide

/-- C7 witness: the non-emptiness at the concrete key `SAS Base`. -/
theorem tool_entries_nonempty_witness :
    ¬ sasBaseInfo.description = "" ∧
    ¬ sasBaseInfo.key_features = [] ∧
    ¬ sasBaseInfo.use_cases = [] :=
  tool_entries_nonempty "SAS Base" sasBaseInfo (by decide)

/-- C8: two invocations of the Demo Analytics renderer are independently
sampled: for some pair of random streams the Sales column differs between
the two runs, while for every pair of runs the row count (12) and the date
column (the 2024 month-ends) coincide. -/
theorem demo_two_runs_independent :
    (∃ s1 c1 t1 s2 c2 t2 : Nat → Rat,
        (demoData s1 c1 t1).map DemoRow.sales ≠ (demoData s2 c2 t2).map DemoRow.sales) ∧
    (∀ s1 c1 t1 s2 c2 t2 : Nat → Rat,
        (demoData s1 c1 t1).length = 12 ∧
        (demoData s2 c2 t2).length = 12 ∧
        (demoData s1 c1 t1).map DemoRow.date = (demoData s2 c2 t2).map DemoRow.date) := by
  constructor
  · exact ⟨fun _ => 0, fun _ => 0, fun _ => 0, fun _ => 1, fun _ => 0, fun _ => 0, by decide⟩
  · intro s1 c1 t1 s2 c2 t2
    exact ⟨rfl, rfl, rfl⟩

/-- C9: the tool names used as columns of the comparison matrix are exactly
the keys of `sas_tools`, spelled identically (even in the same order), so
membership in the two name sets coincides. -/
theorem comparison_tools_match_explorer :
    comparison_data.map Prod.fst = sas_tools.map Prod.fst ∧
    (∀ name : String,
        name ∈ comparison_data.map Prod.fst ↔ name ∈ sas_tools.map Prod.fst) := by
  have h : comparison_data.map Prod.fst = sas_tools.map Prod.fst := by decide
  exact ⟨h, fun name => by rw [h]⟩

/-- C10: the Overview page lists five industries while the Industry
Applications page defines four; each Industry Applications label (icon plus
name, as its expander shows it) occurs among the Overview's labels, and the
Overview's fifth industry, Healthcare Analytics, has no entry on the
Industry Applications page. -/
theorem overview_industry_superset :
    overview_industries.length = 5 ∧
    industries.length = 4 ∧
    industries.map Prod.fst =
      [ "Business Intelligence", "Risk Management"
      , "Environmental Analytics", "Social Media Analytics" ] ∧
    (∀ p ∈ industries, industryLabel p ∈ overview_industries) ∧
    "🏥 Healthcare Analytics" ∈ overview_industries ∧
    (∀ lbl ∈ industries.map industryLabel, ¬ lbl = "🏥 Healthcare Analytics") ∧
    (∀ p ∈ industries, ¬ p.1 = "Healthcare Analytics") := by
  decide
